import Mathlib

/-!
Verification development for the gcp-livestream-demo repository: a shallow
embedding of the two command-line flows (provisioning in
src/createStream/main.go, teardown in src/deleteAll/main.go) together with
theorems settling the behavioural claims about them.

The remote livestream service is an external collaborator; remote calls are
modelled by environments recording the result each call would return, and
every embedded function additionally returns the ordered trace of requests
it issued.
-/

namespace GcpLivestream

/-- Streaming states of a channel (livestreampb Channel_StreamingState). -/
inductive StreamingState
  | unspecified
  | starting
  | streaming
  | stopping
  | stopped
  | awaitingInput
  | updating
  | deleting
  | streamingError
  | streamingNoInput
deriving DecidableEq, Repr

/-- Errors an RPC can fail with.  The Go code never inspects the error kind,
but the distinction between notFound and the rest is what claim C1 is about. -/
inductive RpcErr
  | notFound
  | permissionDenied
  | transient
  | otherErr (msg : String)
deriving DecidableEq, Repr

/-- An input resource as returned by the service: resource name and ingest URI. -/
structure Input where
  name : String
  uri : String
deriving DecidableEq, Repr

/-- A channel resource as returned by the service: resource name, output URI
(channel.GetOutput().GetUri()) and streaming state. -/
structure Channel where
  name : String
  outputUri : String
  state : StreamingState
deriving DecidableEq, Repr

/-- An event resource (listed for display only). -/
structure Event where
  name : String
deriving DecidableEq, Repr

/-! Global configuration constants of src/createStream/main.go. -/

def runningNumber : String := "01"

def projectID : String := "<PROJECT_NUMBER>"

def location : String := "<REGION>"

def channelID : String := "livestream-channel-" ++ runningNumber

def inputID : String := "livestream-input-" ++ runningNumber

def gcsoutput : String := "gs://<GCP_STORAGE_BUCKET>/" ++ inputID

/-- projects/PROJECT/locations/LOCATION -/
def parentName (p l : String) : String :=
  "projects/" ++ p ++ "/locations/" ++ l

/-- Fully qualified input resource name. -/
def inputName (p l id : String) : String :=
  parentName p l ++ "/inputs/" ++ id

/-- Fully qualified channel resource name. -/
def channelName (p l id : String) : String :=
  parentName p l ++ "/channels/" ++ id

/-! ## Template model

The channel template (request.json) is a JSON document whose string values may
contain the two placeholder markers.  createChannelIfNotExists reads the file
as text and applies strings.ReplaceAll for the GCS_OUTPUT marker and then for
the GCP_OTHER_INFO marker, then parses the result with protojson.  We model
each string value of the document as a token list, a marker being a token;
ReplaceAll over the file text is then a map over every field, and parsing
renders each field to the final string. -/

/-- A token of a template string value: a literal chunk or one of the two
placeholder markers. -/
inductive Tok
  | lit (s : String)
  | gcsMark
  | infoMark
deriving DecidableEq, Repr

/-- The text a token stands for in the unsubstituted file. -/
def Tok.render : Tok → String
  | .lit s => s
  | .gcsMark => "<GCS_OUTPUT>"
  | .infoMark => "<GCP_OTHER_INFO>"

/-- Render a template string value to its text. -/
def renderToks (ts : List Tok) : String :=
  String.join (ts.map Tok.render)

/-- First ReplaceAll pass: the GCS_OUTPUT marker becomes the literal g. -/
def substGcsTok (g : String) : Tok → Tok
  | .gcsMark => .lit g
  | t => t

/-- Second ReplaceAll pass: the GCP_OTHER_INFO marker becomes the literal i. -/
def substInfoTok (i : String) : Tok → Tok
  | .infoMark => .lit i
  | t => t

/-- The channel template document: the output destination URI value, the
input reference value of the (single) input attachment, and every other
string value of the document, keyed by its JSON path. -/
structure ChannelTemplate where
  outputUri : List Tok
  inputRefField : List Tok
  others : List (String × List Tok)
deriving DecidableEq, Repr

/-- Both ReplaceAll passes applied to the whole document, GCS_OUTPUT first
then GCP_OTHER_INFO, exactly as in createChannelIfNotExists. -/
def substTemplate (g i : String) (t : ChannelTemplate) : ChannelTemplate where
  outputUri := (t.outputUri.map (substGcsTok g)).map (substInfoTok i)
  inputRefField := (t.inputRefField.map (substGcsTok g)).map (substInfoTok i)
  others := t.others.map (fun kv => (kv.1, (kv.2.map (substGcsTok g)).map (substInfoTok i)))

/-- The channel configuration obtained by parsing a template document. -/
structure ParsedChannelConfig where
  outputUri : String
  inputRefField : String
  others : List (String × String)
deriving DecidableEq, Repr

/-- protojson parse of a template document, modelled as rendering every
string value. -/
def parseTemplate (t : ChannelTemplate) : ParsedChannelConfig where
  outputUri := renderToks t.outputUri
  inputRefField := renderToks t.inputRefField
  others := t.others.map (fun kv => (kv.1, renderToks kv.2))

/-! ## Request trace -/

/-- A request issued to the remote service (or the await of a long-running
operation returned by one). -/
inductive Call
  | getInput (name : String)
  | createInput (parent id : String)
  | waitInputOp
  | getChannel (name : String)
  | createChannel (parent id : String)
  | waitChannelOp
  | startChannel (name : String)
  | waitStartOp
  | stopChannel (name : String)
  | waitStopOp
  | deleteChannel (name : String)
  | deleteInput (name : String)
  | listInputsCall (parent : String)
  | listChannelsCall (parent : String)
  | listEventsCall (parent : String)
deriving DecidableEq, Repr

/-! ## createInputIfNotExists -/

/-- The pretty-printed JSON document written by createInputIfNotExists. -/
structure InputSnapshot where
  inputID : String
  uri : String
deriving DecidableEq, Repr

/-- The pretty-printed JSON document written by createChannelIfNotExists. -/
structure ChannelSnapshot where
  channelID : String
  inputID : String
  gcsoutput : String
deriving DecidableEq, Repr

/-- Outcome of the local file operations: whether os.Create succeeds and
whether the subsequent file Write succeeds. -/
structure FsEnv where
  createFile : Bool
  writeFile : Bool
deriving DecidableEq, Repr

/-- Environment for one run of createInputIfNotExists: the result each remote
call would return, and the file system outcome. -/
structure EnsureInputEnv where
  newClientOk : Bool
  getInput : Except RpcErr Input
  createInputOk : Bool
  waitResult : Except RpcErr Input
  fs : FsEnv

/-- Observable outcome of createInputIfNotExists: requests issued in order,
the snapshot written to the output stream, the snapshot written to the
inputID.json file, the log lines emitted, and the returned error. -/
structure EnsureInputOut where
  calls : List Call
  stdout : Option InputSnapshot
  fileContent : Option InputSnapshot
  logs : List String
  err : Option String
deriving DecidableEq, Repr

/-- Shallow embedding of createInputIfNotExists (src/createStream/main.go).
GetInput is issued; on err == nil the existing input is reported (file create
or write failure returns an error); on ANY GetInput error the function falls
through to CreateInput and op.Wait, and in this branch a file create failure
is only logged while a file write failure returns an error. -/
def createInputIfNotExists (p l id : String) (env : EnsureInputEnv) : EnsureInputOut :=
  if !env.newClientOk then
    { calls := [], stdout := none, fileContent := none, logs := [], err := some "NewClient" }
  else
    let nm := inputName p l id
    match env.getInput with
    | .ok existingInput =>
      let snap : InputSnapshot := { inputID := nm, uri := existingInput.uri }
      if !env.fs.createFile then
        { calls := [.getInput nm], stdout := some snap, fileContent := none,
          logs := ["Input already exists."], err := some "Error creating input file" }
      else if !env.fs.writeFile then
        { calls := [.getInput nm], stdout := some snap, fileContent := none,
          logs := ["Input already exists."], err := some "Error writing to input file" }
      else
        { calls := [.getInput nm], stdout := some snap, fileContent := some snap,
          logs := ["Input already exists."], err := none }
    | .error _ =>
      if !env.createInputOk then
        { calls := [.getInput nm, .createInput (parentName p l) id],
          stdout := none, fileContent := none, logs := [], err := some "CreateInput" }
      else
        match env.waitResult with
        | .error _ =>
          { calls := [.getInput nm, .createInput (parentName p l) id, .waitInputOp],
            stdout := none, fileContent := none, logs := [], err := some "Wait" }
        | .ok response =>
          let snap : InputSnapshot := { inputID := response.name, uri := response.uri }
          if !env.fs.createFile then
            { calls := [.getInput nm, .createInput (parentName p l) id, .waitInputOp],
              stdout := some snap, fileContent := none,
              logs := ["Input created", "Error creating input file"], err := none }
          else if !env.fs.writeFile then
            { calls := [.getInput nm, .createInput (parentName p l) id, .waitInputOp],
              stdout := some snap, fileContent := none,
              logs := ["Input created"], err := some "Error writing to input file" }
          else
            { calls := [.getInput nm, .createInput (parentName p l) id, .waitInputOp],
              stdout := some snap, fileContent := some snap,
              logs := ["Input created"], err := none }

/-! ## createChannelIfNotExists -/

/-- Environment for one run of createChannelIfNotExists. -/
structure EnsureChannelEnv where
  newClientOk : Bool
  getChannel : Except RpcErr Channel
  readFileOk : Bool
  tmpl : ChannelTemplate
  unmarshalOk : Bool
  createChannelOk : Bool
  waitResult : Except RpcErr Channel
  fs : FsEnv

/-- Observable outcome of createChannelIfNotExists; parsedConfig is the
channel configuration submitted with the create request, when the create
path reaches it. -/
structure EnsureChannelOut where
  calls : List Call
  stdout : Option ChannelSnapshot
  fileContent : Option ChannelSnapshot
  parsedConfig : Option ParsedChannelConfig
  logs : List String
  err : Option String
deriving DecidableEq, Repr

/-- Shallow embedding of createChannelIfNotExists (src/createStream/main.go).
On err == nil from GetChannel the existing channel is reported (file create or
write failure returns an error).  On ANY GetChannel error the function falls
through to the create path: read request.json, substitute the GCS_OUTPUT
marker with the global gcsoutput and the GCP_OTHER_INFO marker with the fully
qualified input name built from the global inputID, parse, CreateChannel,
op.Wait; in this branch a file create failure is only logged while a file
write failure returns an error. -/
def createChannelIfNotExists (p l id : String) (env : EnsureChannelEnv) : EnsureChannelOut :=
  if !env.newClientOk then
    { calls := [], stdout := none, fileContent := none, parsedConfig := none,
      logs := [], err := some "NewClient" }
  else
    let nm := channelName p l id
    match env.getChannel with
    | .ok existingChannel =>
      let snap : ChannelSnapshot :=
        { channelID := nm, inputID := inputName p l inputID,
          gcsoutput := existingChannel.outputUri }
      if !env.fs.createFile then
        { calls := [.getChannel nm], stdout := some snap, fileContent := none,
          parsedConfig := none, logs := ["Channel already exists."],
          err := some "Error creating channel file" }
      else if !env.fs.writeFile then
        { calls := [.getChannel nm], stdout := some snap, fileContent := none,
          parsedConfig := none, logs := ["Channel already exists."],
          err := some "Error writing channel file" }
      else
        { calls := [.getChannel nm], stdout := some snap, fileContent := some snap,
          parsedConfig := none, logs := ["Channel already exists."], err := none }
    | .error _ =>
      if !env.readFileOk then
        { calls := [.getChannel nm], stdout := none, fileContent := none,
          parsedConfig := none, logs := [], err := some "ReadFile" }
      else if !env.unmarshalOk then
        { calls := [.getChannel nm], stdout := none, fileContent := none,
          parsedConfig := none, logs := [], err := some "Unmarshal" }
      else
        let config := parseTemplate (substTemplate gcsoutput (inputName p l inputID) env.tmpl)
        if !env.createChannelOk then
          { calls := [.getChannel nm, .createChannel (parentName p l) id],
            stdout := none, fileContent := none, parsedConfig := some config,
            logs := [], err := some "CreateChannel" }
        else
          match env.waitResult with
          | .error _ =>
            { calls := [.getChannel nm, .createChannel (parentName p l) id, .waitChannelOp],
              stdout := none, fileContent := none, parsedConfig := some config,
              logs := [], err := some "Wait" }
          | .ok response =>
            let snap : ChannelSnapshot :=
              { channelID := response.name, inputID := inputName p l inputID,
                gcsoutput := response.outputUri }
            if !env.fs.createFile then
              { calls := [.getChannel nm, .createChannel (parentName p l) id, .waitChannelOp],
                stdout := some snap, fileContent := none, parsedConfig := some config,
                logs := ["Channel created", "Error creating channel file"], err := none }
            else if !env.fs.writeFile then
              { calls := [.getChannel nm, .createChannel (parentName p l) id, .waitChannelOp],
                stdout := some snap, fileContent := none, parsedConfig := some config,
                logs := ["Channel created"], err := some "Error writing channel file" }
            else
              { calls := [.getChannel nm, .createChannel (parentName p l) id, .waitChannelOp],
                stdout := some snap, fileContent := some snap, parsedConfig := some config,
                logs := ["Channel created"], err := none }

/-! ## Remote service collaborator model

For the idempotency claim the two ensure operations must be run back to back
against a service that persists what the first run created.  Per the spec the
service is the authority on the resources: get returns the stored resource or
a not-found error, create stores a resource under the constructed name (the
service assigns its URI / output URI) and the awaited operation returns it.
Local file operations succeed in these runs. -/

/-- Remote service state for the single input id and single channel id the
program works with. -/
structure ServerState where
  input : Option Input
  channel : Option Channel
deriving DecidableEq, Repr

/-- GetInput against the stored state. -/
def serverGetInput (s : ServerState) (nm : String) : Except RpcErr Input :=
  match s.input with
  | some inp => if inp.name = nm then .ok inp else .error .notFound
  | none => .error .notFound

/-- GetChannel against the stored state. -/
def serverGetChannel (s : ServerState) (nm : String) : Except RpcErr Channel :=
  match s.channel with
  | some ch => if ch.name = nm then .ok ch else .error .notFound
  | none => .error .notFound

/-- Run createInputIfNotExists against the service: the lookup result comes
from the state; if the lookup misses, the create stores the input under the
constructed name with the service-assigned URI freshUri and the awaited
operation returns it. -/
def runEnsureInputOnServer (s : ServerState) (freshUri : String) :
    ServerState × EnsureInputOut :=
  let nm := inputName projectID location inputID
  let created : Input := { name := nm, uri := freshUri }
  let env : EnsureInputEnv :=
    { newClientOk := true
      getInput := serverGetInput s nm
      createInputOk := true
      waitResult := .ok created
      fs := { createFile := true, writeFile := true } }
  let out := createInputIfNotExists projectID location inputID env
  match serverGetInput s nm with
  | .ok _ => (s, out)
  | .error _ => ({ s with input := some created }, out)

/-- Run createChannelIfNotExists against the service: if the lookup misses,
the create stores the channel under the constructed name with the
service-assigned output URI freshOut, and the awaited operation returns it. -/
def runEnsureChannelOnServer (s : ServerState) (tmpl : ChannelTemplate)
    (freshOut : String) : ServerState × EnsureChannelOut :=
  let nm := channelName projectID location channelID
  let created : Channel := { name := nm, outputUri := freshOut, state := .stopped }
  let env : EnsureChannelEnv :=
    { newClientOk := true
      getChannel := serverGetChannel s nm
      readFileOk := true
      tmpl := tmpl
      unmarshalOk := true
      createChannelOk := true
      waitResult := .ok created
      fs := { createFile := true, writeFile := true } }
  let out := createChannelIfNotExists projectID location channelID env
  match serverGetChannel s nm with
  | .ok _ => (s, out)
  | .error _ => ({ s with channel := some created }, out)

/-! ## Channel lifecycle: state fetch, start policy, polling -/

/-- Environment for the start phase of main: whether the StartChannel call
returns an operation and whether awaiting it succeeds. -/
structure StartEnv where
  startOk : Bool
  waitOk : Bool
deriving DecidableEq, Repr

/-- Outcome of the start phase: requests issued, whether the flow goes on to
enter the polling loop, log lines. -/
structure StartOut where
  calls : List Call
  entersPollLoop : Bool
  logs : List String
deriving DecidableEq, Repr

/-- The start policy of main (src/createStream/main.go): if the fetched state
is neither STREAMING nor AWAITING_INPUT, issue StartChannel and await its
operation (an error in either aborts main, so the polling loop is not
reached); otherwise skip starting, log the skip, and fall through to the
polling loop. -/
def startPhase (nm : String) (st : StreamingState) (env : StartEnv) : StartOut :=
  if st ≠ StreamingState.streaming ∧ st ≠ StreamingState.awaitingInput then
    if !env.startOk then
      { calls := [.startChannel nm], entersPollLoop := false,
        logs := ["Error starting channel"] }
    else if !env.waitOk then
      { calls := [.startChannel nm, .waitStartOp], entersPollLoop := false,
        logs := ["Error waiting for start operation"] }
    else
      { calls := [.startChannel nm, .waitStartOp], entersPollLoop := true,
        logs := ["Channel started."] }
  else
    { calls := [], entersPollLoop := true,
      logs := ["Channel already started or starting, skipping start operation."] }

/-- String shown for a state by printChannelState. -/
def stateString : StreamingState → String
  | .unspecified => "STREAMING_STATE_UNSPECIFIED"
  | .starting => "STARTING"
  | .streaming => "STREAMING"
  | .stopping => "STOPPING"
  | .stopped => "STOPPED"
  | .awaitingInput => "AWAITING_INPUT"
  | .updating => "UPDATING"
  | .deleting => "DELETING"
  | .streamingError => "STREAMING_ERROR"
  | .streamingNoInput => "STREAMING_NO_INPUT"

/-- One iteration of the polling loop in main: the loop body fetches the
state (an error is logged and the loop continues), then printChannelState
fetches it again and logs either the error or the state. -/
def pollIteration (r1 r2 : Except RpcErr StreamingState) : List String :=
  (match r1 with
   | .error _ => ["Error getting channel state"]
   | .ok _ => []) ++
  (match r2 with
   | .error _ => ["Error getting channel state"]
   | .ok st => ["Channel streaming state: " ++ stateString st])

/-- The polling loop unrolled for fuel iterations; the real loop is
unbounded (it sleeps five seconds between iterations and only external
termination stops it), so any finite prefix is of this shape.  The
environment gives the result of the k-th GetChannel issued by the loop;
iteration n performs fetches 2n and 2n+1.  One log list per iteration. -/
def pollLoopAux (env : Nat → Except RpcErr StreamingState) (k : Nat) :
    Nat → List (List String)
  | 0 => []
  | n + 1 => pollIteration (env k) (env (k + 1)) :: pollLoopAux env (k + 2) n

/-- The polling loop from the first fetch. -/
def pollLoop (env : Nat → Except RpcErr StreamingState) (fuel : Nat) :
    List (List String) :=
  pollLoopAux env 0 fuel

/-! ## Provisioning main flow -/

/-- The successive steps of main in src/createStream/main.go. -/
inductive FlowStep
  | ensureInputStep
  | ensureChannelStep
  | clientStep
  | getStateStep
  | startStep
  | pollLoopStep
deriving DecidableEq, Repr

/-- Environment for the whole provisioning main. -/
structure MainEnv where
  inputEnv : EnsureInputEnv
  channelEnv : EnsureChannelEnv
  mainClientOk : Bool
  getStateResult : Except RpcErr StreamingState
  startEnv : StartEnv

/-- Observable outcome of the provisioning main up to the polling loop:
steps attempted in order, requests issued, logs, and whether the unbounded
polling loop is entered. -/
structure MainOut where
  steps : List FlowStep
  calls : List Call
  logs : List String
  entersPollLoop : Bool
deriving DecidableEq, Repr

/-- Shallow embedding of main in src/createStream/main.go.  An error from
createInputIfNotExists is logged and the flow CONTINUES to the channel step;
an error from createChannelIfNotExists is logged and the flow continues to
client construction; a client construction error or an initial state fetch
error returns from main; otherwise the start policy runs and, unless it
aborted, the polling loop is entered. -/
def createStreamMain (env : MainEnv) : MainOut :=
  let outI := createInputIfNotExists projectID location inputID env.inputEnv
  let logsI := outI.logs ++
    (match outI.err with
     | some _ => ["Error during input creation"]
     | none => [])
  let outC := createChannelIfNotExists projectID location channelID env.channelEnv
  let logsC := outC.logs ++
    (match outC.err with
     | some _ => ["Error creating channel"]
     | none => [])
  if !env.mainClientOk then
    { steps := [.ensureInputStep, .ensureChannelStep, .clientStep]
      calls := outI.calls ++ outC.calls
      logs := logsI ++ logsC ++ ["Error creating client"]
      entersPollLoop := false }
  else
    let nm := channelName projectID location channelID
    match env.getStateResult with
    | .error _ =>
      { steps := [.ensureInputStep, .ensureChannelStep, .clientStep, .getStateStep]
        calls := outI.calls ++ outC.calls ++ [.getChannel nm]
        logs := logsI ++ logsC ++ ["Error getting initial channel state"]
        entersPollLoop := false }
    | .ok st =>
      let outS := startPhase nm st env.startEnv
      { steps := [.ensureInputStep, .ensureChannelStep, .clientStep, .getStateStep,
                  .startStep] ++ (if outS.entersPollLoop then [.pollLoopStep] else [])
        calls := outI.calls ++ outC.calls ++ [.getChannel nm] ++ outS.calls
        logs := logsI ++ logsC ++ outS.logs
        entersPollLoop := outS.entersPollLoop }

/-! ## Teardown flow (src/deleteAll/main.go)

A paginated iterator run is modelled by the finite list of items it yields
followed by its terminal outcome: Done (tailErr = none) or an error
(tailErr = some e). -/

/-- The behaviour of one iterator run. -/
structure IterEnv (α : Type) where
  items : List α
  tailErr : Option RpcErr
deriving DecidableEq, Repr

/-- The accumulate loop shared by listInputs, listChannels and listEvents:
Next until Done (return the accumulated ordered slice) or an error (return
the error, discarding the accumulator). -/
def drainLoop {α : Type} : List α → Option RpcErr → List α → Except RpcErr (List α)
  | [], none, acc => .ok acc
  | [], some e, _ => .error e
  | a :: rest, t, acc => drainLoop rest t (acc ++ [a])

/-- listInputs: drain the ListInputs iterator for the parent scope. -/
def listInputs (p l : String) (iter : IterEnv Input) : Except RpcErr (List Input) :=
  drainLoop iter.items iter.tailErr []

/-- listChannels: drain the ListChannels iterator for the parent scope. -/
def listChannels (p l : String) (iter : IterEnv Channel) : Except RpcErr (List Channel) :=
  drainLoop iter.items iter.tailErr []

/-- listEvents: drain the ListEvents iterator whose parent is the channel
name. -/
def listEvents (chanNm : String) (iter : IterEnv Event) : Except RpcErr (List Event) :=
  drainLoop iter.items iter.tailErr []

/-- Per-resource outcomes in the teardown, keyed by resource name: whether
the StopChannel call returns an operation, whether awaiting it succeeds,
whether DeleteChannel succeeds, whether DeleteInput succeeds. -/
structure TearEnv where
  stopCallOk : String → Bool
  stopWaitOk : String → Bool
  chanDeleteOk : String → Bool
  inputDeleteOk : String → Bool

/-- stopChannel: issue StopChannel; if the call returns an operation, await
it.  Returns the requests issued and the error if any. -/
def stopChannelRun (env : TearEnv) (nm : String) : List Call × Option String :=
  if !env.stopCallOk nm then
    ([.stopChannel nm], some "StopChannel")
  else if !env.stopWaitOk nm then
    ([.stopChannel nm, .waitStopOp], some "StopChannel Wait")
  else
    ([.stopChannel nm, .waitStopOp], none)

/-- The loop body of deleteAllChannels for one listed channel: attempt stop
(a failure is logged and the loop keeps going), then attempt delete (a
failure is logged and the loop keeps going). -/
def channelSegment (env : TearEnv) (nm : String) : List Call :=
  (stopChannelRun env nm).1 ++ [.deleteChannel nm]

/-- The iterator loop of deleteAllChannels: each yielded channel gets its
stop-then-delete segment; after the items, a terminal iterator error makes
the function return that error (the per-channel work already done stands). -/
def chanLoop (env : TearEnv) : List Channel → Option RpcErr → List Call × Option String
  | [], none => ([], none)
  | [], some _ => ([], some "ListChannelsIterator")
  | c :: cs, t =>
    let rest := chanLoop env cs t
    (channelSegment env c.name ++ rest.1, rest.2)

/-- deleteAllChannels: construct a client, then stop and delete every listed
channel. -/
def deleteAllChannels (clientOk : Bool) (iter : IterEnv Channel) (env : TearEnv) :
    List Call × Option String :=
  if !clientOk then ([], some "NewClient")
  else chanLoop env iter.items iter.tailErr

/-- The iterator loop of deleteAllInputs: delete each yielded input, logging
and continuing on a delete failure. -/
def inputLoop (env : TearEnv) : List Input → Option RpcErr → List Call × Option String
  | [], none => ([], none)
  | [], some _ => ([], some "ListInputsIterator")
  | i :: is, t =>
    let rest := inputLoop env is t
    (.deleteInput i.name :: rest.1, rest.2)

/-- deleteAllInputs: construct a client, then delete every listed input. -/
def deleteAllInputs (clientOk : Bool) (iter : IterEnv Input) (env : TearEnv) :
    List Call × Option String :=
  if !clientOk then ([], some "NewClient")
  else inputLoop env iter.items iter.tailErr

/-- The informational per-channel event listing in the teardown main: the
first listEvents error makes main RETURN (no teardown happens at all). -/
def eventsLoop (f : String → IterEnv Event) : List Channel → List Call × Option String
  | [] => ([], none)
  | c :: cs =>
    match listEvents c.name (f c.name) with
    | .error _ => ([.listEventsCall c.name], some "Error listing events")
    | .ok _ =>
      let rest := eventsLoop f cs
      (.listEventsCall c.name :: rest.1, rest.2)

/-- Environment for the whole teardown main. -/
structure DeleteMainEnv where
  clientOk : Bool
  inputsIter : IterEnv Input
  channelsIter : IterEnv Channel
  eventsIter : String → IterEnv Event
  tdChanClientOk : Bool
  tdChanIter : IterEnv Channel
  tdInputClientOk : Bool
  tdInputIter : IterEnv Input
  tear : TearEnv

/-- Shallow embedding of main in src/deleteAll/main.go: construct a client;
list and report inputs (an error returns); list and report channels (an
error returns); list events of every channel (an error returns); then
deleteAllChannels, then deleteAllInputs — an error from either is only
logged.  Returns the trace of requests and the log lines. -/
def deleteAllMain (env : DeleteMainEnv) : List Call × List String :=
  if !env.clientOk then ([], ["Error creating client"])
  else
    let parent := parentName projectID location
    match listInputs projectID location env.inputsIter with
    | .error _ => ([.listInputsCall parent], ["Error listing inputs"])
    | .ok _ =>
      match listChannels projectID location env.channelsIter with
      | .error _ =>
        ([.listInputsCall parent, .listChannelsCall parent], ["Error listing channels"])
      | .ok channels =>
        let ev := eventsLoop env.eventsIter channels
        let base := [.listInputsCall parent, .listChannelsCall parent] ++ ev.1
        match ev.2 with
        | some msg => (base, [msg])
        | none =>
          let cc := deleteAllChannels env.tdChanClientOk env.tdChanIter env.tear
          let ci := deleteAllInputs env.tdInputClientOk env.tdInputIter env.tear
          (base ++ cc.1 ++ ci.1,
           (match cc.2 with
            | some _ => ["Error deleting channels"]
            | none => []) ++
           (match ci.2 with
            | some _ => ["Error deleting inputs"]
            | none => []) ++
           ["Finished deleting all channels and inputs."])

/-! ## Ordering predicates over request traces -/

/-- Does a trace keep every DeleteChannel before any DeleteInput?  Scans the
trace carrying the flag whether a DeleteInput has been seen. -/
def chanBeforeInputScan : List Call → Bool → Bool
  | [], _ => true
  | .deleteChannel _ :: rest, seenInput =>
    !seenInput && chanBeforeInputScan rest seenInput
  | .deleteInput _ :: rest, _ => chanBeforeInputScan rest true
  | _ :: rest, seenInput => chanBeforeInputScan rest seenInput

/-- Scan checking that every DeleteChannel for a name is preceded by a
StopChannel for the same name; carries the names stopped so far, and returns
the final set, or none on a violation. -/
def sbdScan : List Call → List String → Option (List String)
  | [], s => some s
  | .deleteChannel nm :: rest, s => if nm ∈ s then sbdScan rest s else none
  | .stopChannel nm :: rest, s => sbdScan rest (nm :: s)
  | _ :: rest, s => sbdScan rest s

/-! ## Helper predicates and lemmas -/

/-- Number of occurrences of a request in a trace. -/
def countCall (c : Call) (l : List Call) : Nat :=
  (l.filter (fun x => x = c)).length

/-- Is the request a DeleteInput? -/
def isDelInputCall : Call → Bool
  | .deleteInput _ => true
  | _ => false

/-- Is the request a DeleteChannel? -/
def isDelChanCall : Call → Bool
  | .deleteChannel _ => true
  | _ => false

/-- Is the request part of the teardown proper (stop or delete work)? -/
def isTeardownCall : Call → Bool
  | .stopChannel _ => true
  | .waitStopOp => true
  | .deleteChannel _ => true
  | .deleteInput _ => true
  | _ => false

theorem drainLoop_none {α : Type} (items : List α) :
    ∀ acc, drainLoop items none acc = .ok (acc ++ items) := by
  induction items with
  | nil => intro acc; simp [drainLoop]
  | cons a rest ih =>
    intro acc
    simp only [drainLoop, ih (acc ++ [a]), List.append_assoc, List.singleton_append]

theorem drainLoop_some {α : Type} (items : List α) (e : RpcErr) :
    ∀ acc, drainLoop items (some e) acc = .error e := by
  induction items with
  | nil => intro acc; simp [drainLoop]
  | cons a rest ih => intro acc; simp only [drainLoop, ih]

/-- Claim C7: each of listInputs, listChannels and listEvents returns the
full ordered sequence of yielded items when the iterator is drained to Done,
and returns an error, discarding the accumulated prefix, when the iterator
fails. -/
theorem lists_drain_fully_or_abort (p l chanNm : String) (ii : IterEnv Input)
    (ci : IterEnv Channel) (ei : IterEnv Event) :
    (ii.tailErr = none → listInputs p l ii = .ok ii.items) ∧
    (∀ e, ii.tailErr = some e → listInputs p l ii = .error e) ∧
    (ci.tailErr = none → listChannels p l ci = .ok ci.items) ∧
    (∀ e, ci.tailErr = some e → listChannels p l ci = .error e) ∧
    (ei.tailErr = none → listEvents chanNm ei = .ok ei.items) ∧
    (∀ e, ei.tailErr = some e → listEvents chanNm ei = .error e) := by
  refine ⟨fun h => ?_, fun e h => ?_, fun h => ?_, fun e h => ?_, fun h => ?_, fun e h => ?_⟩
  · simp [listInputs, h, drainLoop_none]
  · simp [listInputs, h, drainLoop_some]
  · simp [listChannels, h, drainLoop_none]
  · simp [listChannels, h, drainLoop_some]
  · simp [listEvents, h, drainLoop_none]
  · simp [listEvents, h, drainLoop_some]

/-- Witness for C7 at concrete iterator runs. -/
theorem lists_drain_fully_or_abort_witness :
    listInputs projectID location ⟨[⟨"i1", "u1"⟩, ⟨"i2", "u2"⟩], none⟩ =
      .ok [⟨"i1", "u1"⟩, ⟨"i2", "u2"⟩] ∧
    listChannels projectID location ⟨[⟨"c1", "o1", .stopped⟩], some .transient⟩ =
      .error .transient := by
  constructor
  · exact (lists_drain_fully_or_abort projectID location "c"
      ⟨[⟨"i1", "u1"⟩, ⟨"i2", "u2"⟩], none⟩ ⟨[], none⟩ ⟨[], none⟩).1 rfl
  · exact (lists_drain_fully_or_abort projectID location "c" ⟨[], none⟩
      ⟨[⟨"c1", "o1", .stopped⟩], some .transient⟩ ⟨[], none⟩).2.2.2.1 .transient rfl

/-! ## Claim C1 -/

/-- An ensure-input environment whose lookup fails with a permission error
(not a not-found condition), while everything downstream would succeed. -/
def c1Env : EnsureInputEnv where
  newClientOk := true
  getInput := .error .permissionDenied
  createInputOk := true
  waitResult := .ok ⟨inputName projectID location inputID, "rtmp://ingest/created"⟩
  fs := ⟨true, true⟩

/-- Counterexample to claim C1: on a permission-denied lookup failure,
createInputIfNotExists does NOT surface an error (it returns nil) and it DOES
issue a create request — the err == nil test treats every lookup failure as
not-found. -/
theorem lookup_error_fallthrough_counterexample :
    (createInputIfNotExists projectID location inputID c1Env).err = none ∧
    Call.createInput (parentName projectID location) inputID ∈
      (createInputIfNotExists projectID location inputID c1Env).calls := by
  constructor
  · rfl
  · simp [createInputIfNotExists, c1Env]

/-- Claim C1 amended: in both ensure operations EVERY lookup failure — not
found or otherwise — leads to the create path; the lookup error itself is
never surfaced (for the channel, provided the template read and parse
succeed, the create request is issued). -/
theorem lookup_error_always_creates (p l id p2 l2 id2 : String)
    (envI : EnsureInputEnv) (envC : EnsureChannelEnv) (e1 e2 : RpcErr)
    (h1 : envI.newClientOk = true) (h2 : envI.getInput = .error e1)
    (h3 : envC.newClientOk = true) (h4 : envC.getChannel = .error e2)
    (h5 : envC.readFileOk = true) (h6 : envC.unmarshalOk = true) :
    Call.createInput (parentName p l) id ∈ (createInputIfNotExists p l id envI).calls ∧
    Call.createChannel (parentName p2 l2) id2 ∈
      (createChannelIfNotExists p2 l2 id2 envC).calls := by
  constructor
  · obtain ⟨nc, gi, co, wr, ⟨fc, fw⟩⟩ := envI
    simp only at h1 h2
    subst h1 h2
    cases co <;> cases wr <;> cases fc <;> cases fw <;>
      simp [createInputIfNotExists]
  · obtain ⟨nc, gc, rf, tm, um, cc, wr, ⟨fc, fw⟩⟩ := envC
    simp only at h3 h4 h5 h6
    subst h3 h4 h5 h6
    cases cc <;> cases wr <;> cases fc <;> cases fw <;>
      simp [createChannelIfNotExists]

/-- Witness for the amended C1 at concrete environments. -/
theorem lookup_error_always_creates_witness :
    Call.createInput (parentName projectID location) inputID ∈
      (createInputIfNotExists projectID location inputID c1Env).calls ∧
    Call.createChannel (parentName projectID location) channelID ∈
      (createChannelIfNotExists projectID location channelID
        ⟨true, .error .transient, true, ⟨[.gcsMark], [.infoMark], []⟩, true, true,
          .ok ⟨channelName projectID location channelID, gcsoutput, .stopped⟩,
          ⟨true, true⟩⟩).calls :=
  lookup_error_always_creates projectID location inputID projectID location channelID
    c1Env _ .permissionDenied .transient rfl rfl rfl rfl rfl rfl

/-! ## Claim C10 -/

/-- Claim C10: the snapshot-file error handling is asymmetric.  In the
already-exists branch a failure of os.Create makes the ensure function return
an error; in the created branch the same failure is only logged and the
function returns nil, with the snapshot reported on the output stream but no
file written. -/
theorem snapshot_write_asymmetry :
    (∀ (p l id : String) (env : EnsureInputEnv) (inp : Input),
      env.newClientOk = true → env.getInput = .ok inp → env.fs.createFile = false →
      (createInputIfNotExists p l id env).err = some "Error creating input file" ∧
      (createInputIfNotExists p l id env).fileContent = none) ∧
    (∀ (p l id : String) (env : EnsureInputEnv) (e : RpcErr) (resp : Input),
      env.newClientOk = true → env.getInput = .error e → env.createInputOk = true →
      env.waitResult = .ok resp → env.fs.createFile = false →
      (createInputIfNotExists p l id env).err = none ∧
      (createInputIfNotExists p l id env).fileContent = none ∧
      (createInputIfNotExists p l id env).stdout = some ⟨resp.name, resp.uri⟩) ∧
    (∀ (p l id : String) (env : EnsureChannelEnv) (ch : Channel),
      env.newClientOk = true → env.getChannel = .ok ch → env.fs.createFile = false →
      (createChannelIfNotExists p l id env).err = some "Error creating channel file" ∧
      (createChannelIfNotExists p l id env).fileContent = none) ∧
    (∀ (p l id : String) (env : EnsureChannelEnv) (e : RpcErr) (resp : Channel),
      env.newClientOk = true → env.getChannel = .error e → env.readFileOk = true →
      env.unmarshalOk = true → env.createChannelOk = true →
      env.waitResult = .ok resp → env.fs.createFile = false →
      (createChannelIfNotExists p l id env).err = none ∧
      (createChannelIfNotExists p l id env).fileContent = none ∧
      (createChannelIfNotExists p l id env).stdout =
        some ⟨resp.name, inputName p l inputID, resp.outputUri⟩) := by
  refine ⟨?_, ?_, ?_, ?_⟩
  · intro p l id env inp h1 h2 h3
    obtain ⟨nc, gi, co, wr, ⟨fc, fw⟩⟩ := env
    simp only at h1 h2 h3
    subst h1 h2 h3
    simp [createInputIfNotExists]
  · intro p l id env e resp h1 h2 h3 h4 h5
    obtain ⟨nc, gi, co, wr, ⟨fc, fw⟩⟩ := env
    simp only at h1 h2 h3 h4 h5
    subst h1 h2 h3 h4 h5
    simp [createInputIfNotExists]
  · intro p l id env ch h1 h2 h3
    obtain ⟨nc, gc, rf, tm, um, cc, wr, ⟨fc, fw⟩⟩ := env
    simp only at h1 h2 h3
    subst h1 h2 h3
    simp [createChannelIfNotExists]
  · intro p l id env e resp h1 h2 h3 h4 h5 h6 h7
    obtain ⟨nc, gc, rf, tm, um, cc, wr, ⟨fc, fw⟩⟩ := env
    simp only at h1 h2 h3 h4 h5 h6 h7
    subst h1 h2 h3 h4 h5 h6 h7
    simp [createChannelIfNotExists]

/-- Witness for C10 at concrete environments: the exists-branch returns an
error on a file create failure, the created branch returns nil with no file
written. -/
theorem snapshot_write_asymmetry_witness :
    (createInputIfNotExists projectID location inputID
      ⟨true, .ok ⟨"i", "u"⟩, true, .ok ⟨"i", "u"⟩, ⟨false, true⟩⟩).err =
        some "Error creating input file" ∧
    (createInputIfNotExists projectID location inputID
      ⟨true, .error .notFound, true, .ok ⟨"i", "u"⟩, ⟨false, true⟩⟩).err = none ∧
    (createInputIfNotExists projectID location inputID
      ⟨true, .error .notFound, true, .ok ⟨"i", "u"⟩, ⟨false, true⟩⟩).fileContent = none := by
  refine ⟨?_, ?_, ?_⟩
  · exact (snapshot_write_asymmetry.1 projectID location inputID _ ⟨"i", "u"⟩
      rfl rfl rfl).1
  · exact (snapshot_write_asymmetry.2.1 projectID location inputID _ .notFound ⟨"i", "u"⟩
      rfl rfl rfl rfl rfl).1
  · exact (snapshot_write_asymmetry.2.1 projectID location inputID _ .notFound ⟨"i", "u"⟩
      rfl rfl rfl rfl rfl).2.1

/-! ## Claim C2 -/

/-- Claim C2: running an ensure operation a second time, after a first run
that created or found the resource, issues no create request, and its
written snapshot (stream and file) equals the pair the first run recorded.
The runs are against the remote service model; u, u2 are the URIs the
service would assign on a (first, hypothetical second) input create, fo, fo2
the output URIs on a channel create, t, t2 the templates read. -/
theorem ensure_operations_idempotent (s : ServerState) (u u2 fo fo2 : String)
    (t t2 : ChannelTemplate) :
    ((runEnsureInputOnServer s u).2.err = none ∧
     (runEnsureInputOnServer (runEnsureInputOnServer s u).1 u2).2.err = none ∧
     (∀ pr id, Call.createInput pr id ∉
        (runEnsureInputOnServer (runEnsureInputOnServer s u).1 u2).2.calls) ∧
     (runEnsureInputOnServer (runEnsureInputOnServer s u).1 u2).2.stdout =
       (runEnsureInputOnServer s u).2.stdout ∧
     (runEnsureInputOnServer (runEnsureInputOnServer s u).1 u2).2.fileContent =
       (runEnsureInputOnServer s u).2.fileContent) ∧
    ((runEnsureChannelOnServer s t fo).2.err = none ∧
     (runEnsureChannelOnServer (runEnsureChannelOnServer s t fo).1 t2 fo2).2.err = none ∧
     (∀ pr id, Call.createChannel pr id ∉
        (runEnsureChannelOnServer (runEnsureChannelOnServer s t fo).1 t2 fo2).2.calls) ∧
     (runEnsureChannelOnServer (runEnsureChannelOnServer s t fo).1 t2 fo2).2.stdout =
       (runEnsureChannelOnServer s t fo).2.stdout ∧
     (runEnsureChannelOnServer (runEnsureChannelOnServer s t fo).1 t2 fo2).2.fileContent =
       (runEnsureChannelOnServer s t fo).2.fileContent) := by
  obtain ⟨si, sc⟩ := s
  constructor
  · cases si with
    | none =>
      simp [runEnsureInputOnServer, serverGetInput, createInputIfNotExists]
    | some inp =>
      by_cases h : inp.name = inputName projectID location inputID <;>
        simp [runEnsureInputOnServer, serverGetInput, createInputIfNotExists, h]
  · cases sc with
    | none =>
      simp [runEnsureChannelOnServer, serverGetChannel, createChannelIfNotExists]
    | some ch =>
      by_cases h : ch.name = channelName projectID location channelID <;>
        simp [runEnsureChannelOnServer, serverGetChannel, createChannelIfNotExists, h]

/-! ## Claim C3 -/

/-- Claim C3: if the fetched state is STREAMING or AWAITING_INPUT no start
request is issued (the skip is logged and the flow proceeds to the polling
loop); for every other state exactly one start request is issued, the
operation is awaited whenever the start call returned one, and the polling
loop is entered only after the start and a successful await. -/
theorem start_policy (nm : String) (st : StreamingState) (env : StartEnv) :
    ((st = StreamingState.streaming ∨ st = StreamingState.awaitingInput) →
      (startPhase nm st env).calls = [] ∧
      (startPhase nm st env).entersPollLoop = true ∧
      (startPhase nm st env).logs =
        ["Channel already started or starting, skipping start operation."]) ∧
    (st ≠ StreamingState.streaming → st ≠ StreamingState.awaitingInput →
      countCall (Call.startChannel nm) (startPhase nm st env).calls = 1 ∧
      (env.startOk = true → Call.waitStartOp ∈ (startPhase nm st env).calls) ∧
      ((startPhase nm st env).entersPollLoop = true →
        (startPhase nm st env).calls = [Call.startChannel nm, Call.waitStartOp])) := by
  obtain ⟨so, wo⟩ := env
  constructor
  · intro h
    rcases h with h | h <;> subst h <;> simp [startPhase]
  · intro h1 h2
    cases so <;> cases wo <;>
      simp [startPhase, h1, h2, countCall]

/-- Witness for C3: with state STOPPED the start and await are issued and the
loop is entered after them; with state STREAMING no request is issued. -/
theorem start_policy_witness :
    (startPhase (channelName projectID location channelID) .stopped ⟨true, true⟩).calls =
      [Call.startChannel (channelName projectID location channelID), Call.waitStartOp] ∧
    (startPhase (channelName projectID location channelID) .streaming ⟨true, true⟩).calls =
      [] := by
  constructor
  · exact ((start_policy (channelName projectID location channelID) .stopped
      ⟨true, true⟩).2 (by decide) (by decide)).2.2 rfl
  · exact ((start_policy (channelName projectID location channelID) .streaming
      ⟨true, true⟩).1 (Or.inl rfl)).1

/-! ## Claim C4 -/

/-- A provisioning-main environment in which the input create fails while
everything about the channel would succeed (its lookup misses, so the create
path runs). -/
def c4Env : MainEnv where
  inputEnv :=
    { newClientOk := true, getInput := .error .notFound, createInputOk := false,
      waitResult := .error .transient, fs := ⟨true, true⟩ }
  channelEnv :=
    { newClientOk := true, getChannel := .error .notFound, readFileOk := true,
      tmpl := ⟨[.gcsMark], [.infoMark], []⟩, unmarshalOk := true,
      createChannelOk := true,
      waitResult := .ok ⟨channelName projectID location channelID, gcsoutput, .stopped⟩,
      fs := ⟨true, true⟩ }
  mainClientOk := true
  getStateResult := .ok .stopped
  startEnv := ⟨true, true⟩

/-- Counterexample to claim C4: after createInputIfNotExists fails (its
error is logged), main still attempts channel creation — the channel create
request is issued and the flow runs on to the start step. -/
theorem fail_fast_counterexample :
    "Error during input creation" ∈ (createStreamMain c4Env).logs ∧
    FlowStep.ensureChannelStep ∈ (createStreamMain c4Env).steps ∧
    Call.createChannel (parentName projectID location) channelID ∈
      (createStreamMain c4Env).calls ∧
    FlowStep.startStep ∈ (createStreamMain c4Env).steps := by
  refine ⟨?_, ?_, ?_, ?_⟩ <;>
    simp [createStreamMain, c4Env, createInputIfNotExists, createChannelIfNotExists,
      startPhase]

/-- Claim C4 amended: inside each ensure operation a client-construction,
read/parse, create or operation-wait failure aborts that operation, and in
main a client-construction failure or an initial state fetch failure aborts
the flow before the start step; but an ensureInput or ensureChannel failure
is only logged — main continues to the next step regardless.  No step is
ever attempted twice (no retry). -/
theorem provisioning_failure_policy (env : MainEnv) :
    FlowStep.ensureChannelStep ∈ (createStreamMain env).steps ∧
    (createStreamMain env).steps.Nodup ∧
    (env.mainClientOk = false →
      (createStreamMain env).steps =
        [.ensureInputStep, .ensureChannelStep, .clientStep]) ∧
    (∀ e, env.mainClientOk = true → env.getStateResult = .error e →
      (createStreamMain env).steps =
        [.ensureInputStep, .ensureChannelStep, .clientStep, .getStateStep]) := by
  obtain ⟨ie, ce, mc, gs, se⟩ := env
  refine ⟨?_, ?_, ?_, ?_⟩
  · cases mc with
    | false => simp [createStreamMain]
    | true =>
      cases gs with
      | error e => simp [createStreamMain]
      | ok st =>
        cases h : (startPhase (channelName projectID location channelID) st se).entersPollLoop <;>
          simp [createStreamMain, h]
  · cases mc with
    | false => simp [createStreamMain]
    | true =>
      cases gs with
      | error e => simp [createStreamMain]
      | ok st =>
        cases h : (startPhase (channelName projectID location channelID) st se).entersPollLoop <;>
          simp [createStreamMain, h]
  · intro h
    simp only at h
    subst h
    simp [createStreamMain]
  · intro e h1 h2
    simp only at h1 h2
    subst h1 h2
    simp [createStreamMain]

/-- Witness for the amended C4: a client-construction failure stops the flow
after the client step; a state-fetch failure stops it after the fetch. -/
theorem provisioning_failure_policy_witness :
    (createStreamMain { c4Env with mainClientOk := false }).steps =
      [.ensureInputStep, .ensureChannelStep, .clientStep] ∧
    (createStreamMain { c4Env with getStateResult := .error .transient }).steps =
      [.ensureInputStep, .ensureChannelStep, .clientStep, .getStateStep] := by
  constructor
  · exact (provisioning_failure_policy { c4Env with mainClientOk := false }).2.2.1 rfl
  · exact (provisioning_failure_policy
      { c4Env with getStateResult := .error .transient }).2.2.2 .transient rfl rfl

/-! ## Claim C5: ordering lemmas -/

/-- Is the request a StopChannel? -/
def isStopCall : Call → Bool
  | .stopChannel _ => true
  | _ => false

theorem cbi_skip_no_input (xs ys : List Call)
    (h : ∀ c ∈ xs, isDelInputCall c = false) :
    chanBeforeInputScan (xs ++ ys) false = chanBeforeInputScan ys false := by
  induction xs with
  | nil => rfl
  | cons a rest ih =>
    have ha := h a (by simp)
    have hr : ∀ c ∈ rest, isDelInputCall c = false := fun c hc => h c (by simp [hc])
    cases a <;> simp_all [chanBeforeInputScan, isDelInputCall]

theorem cbi_no_chan : ∀ (xs : List Call) (f : Bool),
    (∀ c ∈ xs, isDelChanCall c = false) → chanBeforeInputScan xs f = true := by
  intro xs
  induction xs with
  | nil => intro f _; rfl
  | cons a rest ih =>
    intro f h
    have ha := h a (by simp)
    have hr : ∀ c ∈ rest, isDelChanCall c = false := fun c hc => h c (by simp [hc])
    cases a <;>
      first
      | (simp [isDelChanCall] at ha
         done)
      | exact ih true hr
      | exact ih f hr

theorem sbdScan_append (xs ys : List Call) :
    ∀ s, sbdScan (xs ++ ys) s = (sbdScan xs s).bind (fun s2 => sbdScan ys s2) := by
  induction xs with
  | nil => intro s; rfl
  | cons a rest ih =>
    intro s
    cases a with
    | deleteChannel nm =>
      by_cases hm : nm ∈ s <;> simp [sbdScan, hm, ih]
    | stopChannel nm => simp [sbdScan, ih]
    | _ => simp [sbdScan, ih]

theorem sbdScan_neutral : ∀ (xs : List Call) (s : List String),
    (∀ c ∈ xs, isDelChanCall c = false ∧ isStopCall c = false) →
    sbdScan xs s = some s := by
  intro xs
  induction xs with
  | nil => intro s _; rfl
  | cons a rest ih =>
    intro s h
    have ha := h a (by simp)
    have hr : ∀ c ∈ rest, isDelChanCall c = false ∧ isStopCall c = false :=
      fun c hc => h c (by simp [hc])
    cases a <;>
      first
      | (simp [isDelChanCall, isStopCall] at ha
         done)
      | exact ih s hr

theorem channelSegment_no_input (env : TearEnv) (nm : String) :
    ∀ c ∈ channelSegment env nm, isDelInputCall c = false := by
  cases h1 : env.stopCallOk nm <;> cases h2 : env.stopWaitOk nm <;>
    simp_all [channelSegment, stopChannelRun, isDelInputCall]

theorem chanLoop_no_input (env : TearEnv) :
    ∀ (cs : List Channel) (t : Option RpcErr),
      ∀ c ∈ (chanLoop env cs t).1, isDelInputCall c = false := by
  intro cs
  induction cs with
  | nil => intro t c hc; cases t <;> simp [chanLoop] at hc
  | cons ch rest ih =>
    intro t c hc
    simp only [chanLoop, List.mem_append] at hc
    rcases hc with hc | hc
    · exact channelSegment_no_input env ch.name c hc
    · exact ih t c hc

theorem deleteAllChannels_no_input (clientOk : Bool) (iter : IterEnv Channel)
    (env : TearEnv) :
    ∀ c ∈ (deleteAllChannels clientOk iter env).1, isDelInputCall c = false := by
  cases clientOk with
  | false => intro c hc; simp [deleteAllChannels] at hc
  | true => exact chanLoop_no_input env iter.items iter.tailErr

theorem inputLoop_only_input (env : TearEnv) :
    ∀ (is : List Input) (t : Option RpcErr),
      ∀ c ∈ (inputLoop env is t).1,
        isDelChanCall c = false ∧ isStopCall c = false := by
  intro is
  induction is with
  | nil => intro t c hc; cases t <;> simp [inputLoop] at hc
  | cons i rest ih =>
    intro t c hc
    simp only [inputLoop, List.mem_cons] at hc
    rcases hc with hc | hc
    · subst hc; exact ⟨rfl, rfl⟩
    · exact ih t c hc

theorem deleteAllInputs_only_input (clientOk : Bool) (iter : IterEnv Input)
    (env : TearEnv) :
    ∀ c ∈ (deleteAllInputs clientOk iter env).1,
      isDelChanCall c = false ∧ isStopCall c = false := by
  cases clientOk with
  | false => intro c hc; simp [deleteAllInputs] at hc
  | true => exact inputLoop_only_input env iter.items iter.tailErr

theorem sbdScan_channelSegment (env : TearEnv) (nm : String) (s : List String) :
    sbdScan (channelSegment env nm) s = some (nm :: s) := by
  cases h1 : env.stopCallOk nm <;> cases h2 : env.stopWaitOk nm <;>
    simp [channelSegment, stopChannelRun, h1, h2, sbdScan]

theorem sbdScan_chanLoop (env : TearEnv) :
    ∀ (cs : List Channel) (t : Option RpcErr) (s : List String),
      ∃ s2, sbdScan ((chanLoop env cs t).1) s = some s2 := by
  intro cs
  induction cs with
  | nil => intro t s; cases t <;> exact ⟨s, rfl⟩
  | cons ch rest ih =>
    intro t s
    obtain ⟨s2, hs2⟩ := ih t (ch.name :: s)
    refine ⟨s2, ?_⟩
    simp only [chanLoop]
    rw [sbdScan_append, sbdScan_channelSegment]
    exact hs2

theorem sbdScan_deleteAllChannels (clientOk : Bool) (iter : IterEnv Channel)
    (env : TearEnv) (s : List String) :
    ∃ s2, sbdScan (deleteAllChannels clientOk iter env).1 s = some s2 := by
  cases clientOk with
  | false => exact ⟨s, rfl⟩
  | true => exact sbdScan_chanLoop env iter.items iter.tailErr s

theorem eventsLoop_only_list (f : String → IterEnv Event) :
    ∀ cs, ∀ c ∈ (eventsLoop f cs).1, isTeardownCall c = false := by
  intro cs
  induction cs with
  | nil => intro c hc; simp [eventsLoop] at hc
  | cons ch rest ih =>
    intro c hc
    simp only [eventsLoop] at hc
    cases h : listEvents ch.name (f ch.name) with
    | error e =>
      rw [h] at hc
      simp at hc
      subst hc; rfl
    | ok evs =>
      rw [h] at hc
      simp only [List.mem_cons] at hc
      rcases hc with hc | hc
      · subst hc; rfl
      · exact ih c hc

theorem teardown_not_chan_of_not_teardown (c : Call) (h : isTeardownCall c = false) :
    isDelInputCall c = false ∧ isDelChanCall c = false ∧ isStopCall c = false := by
  cases c <;> simp_all [isTeardownCall, isDelInputCall, isDelChanCall, isStopCall]

/-- Claim C5: in every run of the teardown main, every DeleteChannel in the
request trace is issued before any DeleteInput, and every DeleteChannel for a
channel name is preceded by a StopChannel for the same name. -/
theorem teardown_ordering (env : DeleteMainEnv) :
    chanBeforeInputScan (deleteAllMain env).1 false = true ∧
    (sbdScan (deleteAllMain env).1 []).isSome = true := by
  obtain ⟨co, ii, ci, ef, tcc, tci, tic, tii, te⟩ := env
  cases co with
  | false => exact ⟨rfl, rfl⟩
  | true =>
    cases h1 : listInputs projectID location ii with
    | error e =>
      constructor <;> simp [deleteAllMain, h1, chanBeforeInputScan, sbdScan]
    | ok ins =>
      cases h2 : listChannels projectID location ci with
      | error e =>
        constructor <;> simp [deleteAllMain, h1, h2, chanBeforeInputScan, sbdScan]
      | ok chans =>
        have hev : ∀ c ∈ (eventsLoop ef chans).1, isTeardownCall c = false :=
          eventsLoop_only_list ef chans
        cases h3 : (eventsLoop ef chans).2 with
        | some msg =>
          have htrace : (deleteAllMain ⟨true, ii, ci, ef, tcc, tci, tic, tii, te⟩).1 =
              [.listInputsCall (parentName projectID location),
               .listChannelsCall (parentName projectID location)] ++
              (eventsLoop ef chans).1 := by
            simp [deleteAllMain, h1, h2, h3]
          have hmem : ∀ c ∈ ([Call.listInputsCall (parentName projectID location),
              Call.listChannelsCall (parentName projectID location)] ++
              (eventsLoop ef chans).1),
              isDelChanCall c = false ∧ isStopCall c = false := by
            intro c hc
            simp only [List.mem_append, List.mem_cons, List.not_mem_nil, or_false] at hc
            rcases hc with (hc | hc) | hc
            · subst hc; exact ⟨rfl, rfl⟩
            · subst hc; exact ⟨rfl, rfl⟩
            · have := teardown_not_chan_of_not_teardown c (hev c hc)
              exact ⟨this.2.1, this.2.2⟩
          constructor
          · rw [htrace]
            exact cbi_no_chan _ false (fun c hc => (hmem c hc).1)
          · rw [htrace, sbdScan_neutral _ [] hmem]
            rfl
        | none =>
          have htrace : (deleteAllMain ⟨true, ii, ci, ef, tcc, tci, tic, tii, te⟩).1 =
              (([.listInputsCall (parentName projectID location),
                 .listChannelsCall (parentName projectID location)] ++
                (eventsLoop ef chans).1) ++
               (deleteAllChannels tcc tci te).1) ++
              (deleteAllInputs tic tii te).1 := by
            simp [deleteAllMain, h1, h2, h3, List.append_assoc]
          constructor
          · rw [htrace, cbi_skip_no_input]
            · exact cbi_no_chan _ false (fun c hc =>
                (deleteAllInputs_only_input tic tii te c hc).1)
            · intro c hc
              simp only [List.mem_append, List.mem_cons, List.not_mem_nil, or_false] at hc
              rcases hc with ((hc | hc) | hc) | hc
              · subst hc; rfl
              · subst hc; rfl
              · exact (teardown_not_chan_of_not_teardown c (hev c hc)).1
              · exact deleteAllChannels_no_input tcc tci te c hc
          · rw [htrace, sbdScan_append, sbdScan_append]
            have hb : sbdScan ([Call.listInputsCall (parentName projectID location),
                Call.listChannelsCall (parentName projectID location)] ++
                (eventsLoop ef chans).1) [] = some [] := by
              refine sbdScan_neutral _ [] ?_
              intro c hc
              simp only [List.mem_append, List.mem_cons, List.not_mem_nil, or_false] at hc
              rcases hc with (hc | hc) | hc
              · subst hc; exact ⟨rfl, rfl⟩
              · subst hc; exact ⟨rfl, rfl⟩
              · have := teardown_not_chan_of_not_teardown c (hev c hc)
                exact ⟨this.2.1, this.2.2⟩
            obtain ⟨s2, hs2⟩ := sbdScan_deleteAllChannels tcc tci te []
            have hci : sbdScan (deleteAllInputs tic tii te).1 s2 = some s2 :=
              sbdScan_neutral _ s2 (deleteAllInputs_only_input tic tii te)
            rw [hb]
            simp [hs2, hci]

/-! ## Claim C6 -/

theorem chanLoop_delete_attempted (env : TearEnv) :
    ∀ (cs : List Channel) (t : Option RpcErr), ∀ c ∈ cs,
      Call.deleteChannel c.name ∈ (chanLoop env cs t).1 := by
  intro cs
  induction cs with
  | nil => intro t c hc; simp at hc
  | cons ch rest ih =>
    intro t c hc
    simp only [chanLoop, List.mem_append]
    rcases List.mem_cons.mp hc with hc | hc
    · subst hc
      exact Or.inl (by simp [channelSegment])
    · exact Or.inr (ih t c hc)

theorem inputLoop_delete_attempted (env : TearEnv) :
    ∀ (is : List Input) (t : Option RpcErr), ∀ i ∈ is,
      Call.deleteInput i.name ∈ (inputLoop env is t).1 := by
  intro is
  induction is with
  | nil => intro t i hi; simp at hi
  | cons inp rest ih =>
    intro t i hi
    rcases List.mem_cons.mp hi with hi | hi
    · subst hi
      exact List.mem_cons_self _ _
    · exact List.mem_cons_of_mem _ (ih t i hi)

theorem pollLoopAux_length (env : Nat → Except RpcErr StreamingState) :
    ∀ (fuel k : Nat), (pollLoopAux env k fuel).length = fuel := by
  intro fuel
  induction fuel with
  | zero => intro k; rfl
  | succ n ih =>
    intro k
    simp only [pollLoopAux, List.length_cons, ih]

/-- Claim C6: the teardown is best-effort — whatever the per-resource stop
and delete outcomes (the whole TearEnv is arbitrary), every channel in the
listing gets a delete attempt and every input in the listing gets a delete
attempt; and the polling loop performs every iteration regardless of
state-fetch errors (one log entry list per iteration, errors included). -/
theorem best_effort_continue (env : TearEnv) (ic : IterEnv Channel)
    (ii : IterEnv Input) (penv : Nat → Except RpcErr StreamingState) (fuel : Nat) :
    (∀ c ∈ ic.items, Call.deleteChannel c.name ∈ (deleteAllChannels true ic env).1) ∧
    (∀ i ∈ ii.items, Call.deleteInput i.name ∈ (deleteAllInputs true ii env).1) ∧
    (pollLoop penv fuel).length = fuel := by
  refine ⟨?_, ?_, ?_⟩
  · intro c hc
    exact chanLoop_delete_attempted env ic.items ic.tailErr c hc
  · intro i hi
    exact inputLoop_delete_attempted env ii.items ii.tailErr i hi
  · exact pollLoopAux_length penv fuel 0

/-- A teardown environment in which every stop and every delete fails. -/
def c6Tear : TearEnv where
  stopCallOk := fun _ => false
  stopWaitOk := fun _ => false
  chanDeleteOk := fun _ => false
  inputDeleteOk := fun _ => false

/-- Witness for C6: with channel A failing to stop and delete, channels B
and C still receive delete attempts, and a polling loop whose every fetch
errors still performs all three iterations. -/
theorem best_effort_continue_witness :
    Call.deleteChannel "B" ∈ (deleteAllChannels true
      ⟨[⟨"A", "o", .streaming⟩, ⟨"B", "o", .streaming⟩, ⟨"C", "o", .streaming⟩], none⟩
      c6Tear).1 ∧
    Call.deleteChannel "C" ∈ (deleteAllChannels true
      ⟨[⟨"A", "o", .streaming⟩, ⟨"B", "o", .streaming⟩, ⟨"C", "o", .streaming⟩], none⟩
      c6Tear).1 ∧
    (pollLoop (fun _ => .error .transient) 3).length = 3 := by
  refine ⟨?_, ?_, ?_⟩
  · exact (best_effort_continue c6Tear
      ⟨[⟨"A", "o", .streaming⟩, ⟨"B", "o", .streaming⟩, ⟨"C", "o", .streaming⟩], none⟩
      ⟨[], none⟩ (fun _ => .error .transient) 3).1 ⟨"B", "o", .streaming⟩ (by simp)
  · exact (best_effort_continue c6Tear
      ⟨[⟨"A", "o", .streaming⟩, ⟨"B", "o", .streaming⟩, ⟨"C", "o", .streaming⟩], none⟩
      ⟨[], none⟩ (fun _ => .error .transient) 3).1 ⟨"C", "o", .streaming⟩ (by simp)
  · exact (best_effort_continue c6Tear ⟨[], none⟩ ⟨[], none⟩
      (fun _ => .error .transient) 3).2.2

/-! ## Claim C9 -/

/-- Claim C9: if listing the events of any channel fails during the
informational report, the teardown main returns at once — its whole request
trace contains no stop and no delete for any channel or input. -/
theorem events_error_aborts_teardown (env : DeleteMainEnv) (chans : List Channel)
    (ins : List Input) (msg : String)
    (h0 : env.clientOk = true)
    (h1 : listInputs projectID location env.inputsIter = .ok ins)
    (h2 : listChannels projectID location env.channelsIter = .ok chans)
    (h3 : (eventsLoop env.eventsIter chans).2 = some msg) :
    ∀ c ∈ (deleteAllMain env).1, isTeardownCall c = false := by
  obtain ⟨co, ii, ci, ef, tcc, tci, tic, tii, te⟩ := env
  simp only at h0 h1 h2 h3
  subst h0
  have htrace : (deleteAllMain ⟨true, ii, ci, ef, tcc, tci, tic, tii, te⟩).1 =
      [.listInputsCall (parentName projectID location),
       .listChannelsCall (parentName projectID location)] ++
      (eventsLoop ef chans).1 := by
    simp [deleteAllMain, h1, h2, h3]
  intro c hc
  rw [htrace] at hc
  simp only [List.mem_append, List.mem_cons, List.not_mem_nil, or_false] at hc
  rcases hc with (hc | hc) | hc
  · subst hc; rfl
  · subst hc; rfl
  · exact eventsLoop_only_list ef chans c hc

/-- A teardown-main environment whose only channel fails its event listing
while resources exist to be deleted. -/
def c9Env : DeleteMainEnv where
  clientOk := true
  inputsIter := ⟨[⟨"in1", "u1"⟩], none⟩
  channelsIter := ⟨[⟨"ch1", "o1", .streaming⟩], none⟩
  eventsIter := fun _ => ⟨[], some .transient⟩
  tdChanClientOk := true
  tdChanIter := ⟨[⟨"ch1", "o1", .streaming⟩], none⟩
  tdInputClientOk := true
  tdInputIter := ⟨[⟨"in1", "u1"⟩], none⟩
  tear :=
    { stopCallOk := fun _ => true, stopWaitOk := fun _ => true,
      chanDeleteOk := fun _ => true, inputDeleteOk := fun _ => true }

/-- Witness for C9 at the concrete environment: despite a listed channel and
input, nothing in the trace is a stop or delete. -/
theorem events_error_aborts_teardown_witness :
    (deleteAllMain c9Env).1.all (fun c => !isTeardownCall c) = true := by
  have h := events_error_aborts_teardown c9Env [⟨"ch1", "o1", .streaming⟩]
    [⟨"in1", "u1"⟩] "Error listing events" rfl (by rfl) (by rfl) (by rfl)
  rw [List.all_eq_true]
  intro c hc
  simp [h c hc]

/-! ## Claim C8 -/

theorem renderToks_lit (s : String) : renderToks [Tok.lit s] = s := rfl

theorem subst_mark_free (g i : String) :
    ∀ ts : List Tok, Tok.gcsMark ∉ ts → Tok.infoMark ∉ ts →
      (ts.map (substGcsTok g)).map (substInfoTok i) = ts := by
  intro ts
  induction ts with
  | nil => intro _ _; rfl
  | cons t rest ih =>
    intro h1 h2
    have h1r : Tok.gcsMark ∉ rest := fun hh => h1 (List.mem_cons_of_mem _ hh)
    have h2r : Tok.infoMark ∉ rest := fun hh => h2 (List.mem_cons_of_mem _ hh)
    cases t with
    | lit s => simp [substGcsTok, substInfoTok, ih h1r h2r]
    | gcsMark => exact absurd (List.mem_cons_self _ _) h1
    | infoMark => exact absurd (List.mem_cons_self _ _) h2

theorem subst_others_mark_free (g i : String) :
    ∀ os : List (String × List Tok),
      (∀ kv ∈ os, Tok.gcsMark ∉ kv.2 ∧ Tok.infoMark ∉ kv.2) →
      os.map (fun kv => (kv.1, (kv.2.map (substGcsTok g)).map (substInfoTok i))) = os := by
  intro os
  induction os with
  | nil => intro _; rfl
  | cons kv rest ih =>
    intro h
    have hk := h kv (List.mem_cons_self _ _)
    have hr : ∀ kv2 ∈ rest, Tok.gcsMark ∉ kv2.2 ∧ Tok.infoMark ∉ kv2.2 :=
      fun kv2 hh => h kv2 (List.mem_cons_of_mem _ hh)
    obtain ⟨k, v⟩ := kv
    simp only at hk
    simp only [List.map_cons]
    rw [subst_mark_free g i v hk.1 hk.2, ih hr]

/-- Claim C8: on the creation path of createChannelIfNotExists, for a
template holding the output-destination marker and the input-reference
marker exactly once each (as their own field values, no marker elsewhere),
the parsed configuration output URI is the literal substituted storage URI
(the global gcsoutput), its input reference is the literal fully qualified
input name, and every other field equals the template parsed without
substitution. -/
theorem template_substitution (p l id : String) (env : EnsureChannelEnv) (e : RpcErr)
    (h1 : env.newClientOk = true) (h2 : env.getChannel = .error e)
    (h3 : env.readFileOk = true) (h4 : env.unmarshalOk = true)
    (h5 : env.tmpl.outputUri = [Tok.gcsMark])
    (h6 : env.tmpl.inputRefField = [Tok.infoMark])
    (h7 : ∀ kv ∈ env.tmpl.others, Tok.gcsMark ∉ kv.2 ∧ Tok.infoMark ∉ kv.2) :
    (createChannelIfNotExists p l id env).parsedConfig =
      some { outputUri := gcsoutput
             inputRefField := inputName p l inputID
             others := (parseTemplate env.tmpl).others } := by
  obtain ⟨nc, gc, rf, tm, um, cc, wr, ⟨fc, fw⟩⟩ := env
  simp only at h1 h2 h3 h4 h5 h6 h7
  subst h1 h2 h3 h4
  have hothers := subst_others_mark_free gcsoutput (inputName p l inputID) tm.others h7
  have hconfig : parseTemplate (substTemplate gcsoutput (inputName p l inputID) tm) =
      { outputUri := gcsoutput
        inputRefField := inputName p l inputID
        others := (parseTemplate tm).others } := by
    simp only [parseTemplate, substTemplate, h5, h6, hothers]
    simp [substGcsTok, substInfoTok, renderToks_lit]
  cases cc <;> cases wr <;> cases fc <;> cases fw <;>
    simp [createChannelIfNotExists, hconfig]

/-- The template of src/unnamed/part_000 (request.json) in the token model:
the output URI value is the GCS_OUTPUT marker, the input attachment input
value is the GCP_OTHER_INFO marker, and every other string value is a
literal, keyed by its JSON path. -/
def requestTemplate : ChannelTemplate where
  outputUri := [.gcsMark]
  inputRefField := [.infoMark]
  others :=
    [("inputAttachments[0].key", [.lit "my-input"]),
     ("logConfig.logSeverity", [.lit "DEBUG"]),
     ("elementaryStreams[0].key", [.lit "es_video"]),
     ("elementaryStreams[0].videoStream.h264.profile", [.lit "high"]),
     ("elementaryStreams[1].key", [.lit "es_audio"]),
     ("elementaryStreams[1].audioStream.codec", [.lit "aac"]),
     ("muxStreams[0].key", [.lit "mux_video"]),
     ("muxStreams[0].elementaryStreams[0]", [.lit "es_video"]),
     ("muxStreams[0].segmentSettings.segmentDuration", [.lit "2s"]),
     ("muxStreams[1].key", [.lit "mux_audio"]),
     ("muxStreams[1].elementaryStreams[0]", [.lit "es_audio"]),
     ("muxStreams[1].segmentSettings.segmentDuration", [.lit "2s"]),
     ("manifests[0].key", [.lit "manifest_dash"]),
     ("manifests[0].fileName", [.lit "main.mpd"]),
     ("manifests[0].type", [.lit "DASH"]),
     ("manifests[0].muxStreams[0]", [.lit "mux_video"]),
     ("manifests[0].muxStreams[1]", [.lit "mux_audio"])]

/-- Witness for C8 on the repository request.json template. -/
theorem template_substitution_witness :
    (createChannelIfNotExists projectID location channelID
      ⟨true, .error .notFound, true, requestTemplate, true, true,
        .ok ⟨channelName projectID location channelID, gcsoutput, .stopped⟩,
        ⟨true, true⟩⟩).parsedConfig =
      some { outputUri := gcsoutput
             inputRefField := inputName projectID location inputID
             others := (parseTemplate requestTemplate).others } :=
  template_substitution projectID location channelID _ .notFound
    rfl rfl rfl rfl rfl rfl (by decide)

end GcpLivestream

